import Mathlib

/-!
Verification of the Kepler-equation solver `keplersLaw` of the
asteroid-hit-prediction repository.

The source function is

  export const keplersLaw = (M: number, e: number, iterations = 6) => {
    let E = M;
    for (let i = 0; i < iterations; i++) {
      E = E - (E - e * Math.sin(E) - M) / (1 - e * Math.cos(E));
    }
    return E;
  };

We embed it over the reals: the loop body becomes `newtonStep`, the `for`
loop becomes `keplersLawLoop` (which runs the body a given number of times),
and `keplersLaw` starts the loop at `E = M`, running it `iterations.toNat`
times (the JavaScript loop executes zero times for a non-positive count).
The call with the iteration argument omitted is `keplersLawDefault`.
`specNewtonSeq` is the Newton-Raphson sequence exactly as the specification
words it, used to compare the code against the spec; `solveSpec` is the
validated contract of spec section 7, used to compare the code's error
behaviour against the specified one.
-/

namespace AsteroidHit

noncomputable section

/-- One Newton-Raphson update `E - (E - e*sin E - M) / (1 - e*cos E)`:
the loop body of `keplersLaw` in the source. -/
def newtonStep (M e E : ℝ) : ℝ :=
  E - (E - e * Real.sin E - M) / (1 - e * Real.cos E)

/-- The `for` loop of `keplersLaw`: starting from the accumulator `E`,
run the loop body `k` times. -/
def keplersLawLoop (M e : ℝ) : ℕ → ℝ → ℝ
  | 0, E => E
  | k + 1, E => keplersLawLoop M e k (newtonStep M e E)

/-- Embedding of the source function `keplersLaw (M, e, iterations)`:
`E` starts at `M` and the `for` loop runs `iterations` times (zero times
when `iterations ≤ 0`, as in the source's `i < iterations` guard). -/
def keplersLaw (M e : ℝ) (iterations : ℤ) : ℝ :=
  keplersLawLoop M e iterations.toNat M

/-- The call `keplersLaw(M, e)` with the iteration argument omitted:
the source declares the default value `iterations = 6`. -/
def keplersLawDefault (M e : ℝ) : ℝ :=
  keplersLaw M e 6

/-- The Newton-Raphson sequence exactly as the specification words it:
E₀ = M and Eₖ₊₁ = Eₖ − (Eₖ − e·sin Eₖ − M) / (1 − e·cos Eₖ).  This is the
spec-side definition against which the code is compared. -/
def specNewtonSeq (M e : ℝ) : ℕ → ℝ
  | 0 => M
  | k + 1 =>
    specNewtonSeq M e k -
      (specNewtonSeq M e k - e * Real.sin (specNewtonSeq M e k) - M) /
        (1 - e * Real.cos (specNewtonSeq M e k))

/-- Error taxonomy of spec section 7. -/
inductive KeplerError
  | domainError
  | invalidInput

open Classical in
/-- Spec-side contract (follows the spec's words, section 7): eccentricity
outside [0, 1) is rejected with `DomainError` before iterating; valid inputs
run the solver.  (Non-finite inputs do not exist in the real-number model,
so the `InvalidInput` branch for NaN/∞ has no inhabitant here.)  Used to
compare the implemented `keplersLaw` against the specified error behaviour. -/
def solveSpec (M e : ℝ) (iterations : ℤ) : Except KeplerError ℝ :=
  if e < 0 ∨ 1 ≤ e then Except.error KeplerError.domainError
  else Except.ok (keplersLaw M e iterations)

/-- Unrolling the loop from the outside: running the body `k + 1` times is
one `newtonStep` applied after running it `k` times. -/
lemma keplersLawLoop_succ (M e : ℝ) (k : ℕ) (E : ℝ) :
    keplersLawLoop M e (k + 1) E = newtonStep M e (keplersLawLoop M e k E) := by
  induction k generalizing E with
  | zero => rfl
  | succ k ih =>
    show keplersLawLoop M e (k + 1) (newtonStep M e E) = _
    rw [ih]
    rfl

/-- The code's loop started at `M` computes the spec's Newton-Raphson
sequence. -/
lemma keplersLawLoop_eq_specNewtonSeq (M e : ℝ) (n : ℕ) :
    keplersLawLoop M e n M = specNewtonSeq M e n := by
  induction n with
  | zero => rfl
  | succ k ih =>
    rw [keplersLawLoop_succ, ih]
    rfl

/-- With `M = 0` the origin is a fixed point of the update, whatever the
eccentricity: the numerator `0 - e*sin 0 - 0` vanishes. -/
lemma newtonStep_zero (e : ℝ) : newtonStep 0 e 0 = 0 := by
  simp [newtonStep]

/-- With `M = 0` every iterate of the loop started at `0` stays `0`. -/
lemma keplersLawLoop_zero (e : ℝ) (k : ℕ) : keplersLawLoop 0 e k 0 = 0 := by
  induction k with
  | zero => rfl
  | succ k ih =>
    show keplersLawLoop 0 e k (newtonStep 0 e 0) = 0
    rw [newtonStep_zero]
    exact ih

/-- `keplersLaw 0 e n = 0` for every eccentricity and iteration count. -/
lemma keplersLaw_zero_M (e : ℝ) (n : ℤ) : keplersLaw 0 e n = 0 :=
  keplersLawLoop_zero e n.toNat

/-- With `e = 0` the update returns `M` from any point: the quotient is
`(E - M) / 1`. -/
lemma newtonStep_zero_ecc (M E : ℝ) : newtonStep M 0 E = M := by
  simp [newtonStep]

/-- With `e = 0` the loop started at `M` stays at `M` forever. -/
lemma keplersLawLoop_zero_ecc (M : ℝ) (k : ℕ) : keplersLawLoop M 0 k M = M := by
  induction k with
  | zero => rfl
  | succ k ih =>
    show keplersLawLoop M 0 k (newtonStep M 0 M) = M
    rw [newtonStep_zero_ecc]
    exact ih

/-- One call with a single iteration in closed form:
`keplersLaw M e 1 = M + e·sin M / (1 − e·cos M)`. -/
lemma keplersLaw_one (M e : ℝ) :
    keplersLaw M e 1 = M + e * Real.sin M / (1 - e * Real.cos M) := by
  show newtonStep M e M = _
  rw [newtonStep]
  ring

/-- Claim C1: for every real M, every real e and every n ≥ 1, `keplersLaw`
with (M, e, n) computes exactly the Newton-Raphson sequence of the spec —
it starts from E₀ = M, applies the update exactly n times and returns Eₙ —
and the call with the iteration argument omitted uses the default of 6
iterations with no early exit. -/
theorem keplersLaw_computes_spec_sequence :
    (∀ (M e : ℝ) (n : ℕ), 1 ≤ n → keplersLaw M e (n : ℤ) = specNewtonSeq M e n) ∧
    ∀ M e : ℝ, keplersLawDefault M e = specNewtonSeq M e 6 := by
  constructor
  · intro M e n _
    show keplersLawLoop M e ((n : ℤ)).toNat M = specNewtonSeq M e n
    rw [Int.toNat_natCast]
    exact keplersLawLoop_eq_specNewtonSeq M e n
  · intro M e
    exact keplersLawLoop_eq_specNewtonSeq M e 6

/-- Witness for C1 at M = 1, e = 1/2, n = 3. -/
theorem keplersLaw_computes_spec_sequence_witness :
    keplersLaw 1 (1/2) ((3 : ℕ) : ℤ) = specNewtonSeq 1 (1/2) 3 :=
  keplersLaw_computes_spec_sequence.1 1 (1/2) 3 (by norm_num)

/-- Claim C3, counterexample: the implemented solver does not reject
eccentricities outside [0, 1).  Where the spec contract `solveSpec` raises
`DomainError` for e = −0.1 (before any iteration), the code silently runs
all 6 iterations and returns a real number (here 0). -/
theorem solve_boundary_not_rejected :
    solveSpec 0 (-1/10) 6 = Except.error KeplerError.domainError ∧
    keplersLaw 0 (-1/10) 6 = 0 := by
  constructor
  · rw [solveSpec, if_pos]
    left
    norm_num
  · exact keplersLaw_zero_M (-1/10) 6

/-- Claim C3, amended: the implemented solver performs no input validation;
for the out-of-domain eccentricities e = 1.0 and e = −0.1 of the claim it
silently computes the plain (unvalidated) Newton-Raphson iteration on the
given values — no DomainError is raised and no clamping occurs. -/
theorem keplersLaw_no_validation_at_boundary :
    ∀ (M : ℝ) (n : ℤ),
      keplersLaw M 1 n = specNewtonSeq M 1 n.toNat ∧
      keplersLaw M (-1/10) n = specNewtonSeq M (-1/10) n.toNat := by
  intro M n
  exact ⟨keplersLawLoop_eq_specNewtonSeq M 1 n.toNat,
    keplersLawLoop_eq_specNewtonSeq M (-1/10) n.toNat⟩

/-- Claim C4: with eccentricity e = 0 the solver returns exactly M for any
iteration count n ≥ 1 (the zero-eccentricity case is the identity on the
mean anomaly). -/
theorem keplersLaw_zero_ecc_identity :
    ∀ (M : ℝ) (n : ℤ), 1 ≤ n → keplersLaw M 0 n = M := by
  intro M n _
  exact keplersLawLoop_zero_ecc M n.toNat

/-- Witness for C4 at M = 7, n = 2. -/
theorem keplersLaw_zero_ecc_identity_witness :
    keplersLaw 7 0 2 = 7 :=
  keplersLaw_zero_ecc_identity 7 2 (by norm_num)

/-- Claim C5: for 0 ≤ e < 1 and any M, the divisor 1 − e·cos(E) at every
iterate E produced during the solver's loop is at least 1 − e, hence
strictly positive: the Newton-Raphson update never divides by zero within
the valid eccentricity domain. -/
theorem newton_divisor_pos :
    ∀ (M e : ℝ) (k : ℕ), 0 ≤ e → e < 1 →
      1 - e ≤ 1 - e * Real.cos (specNewtonSeq M e k) ∧
      0 < 1 - e * Real.cos (specNewtonSeq M e k) := by
  intro M e k he0 he1
  have hc : Real.cos (specNewtonSeq M e k) ≤ 1 := Real.cos_le_one _
  have hm : e * Real.cos (specNewtonSeq M e k) ≤ e * 1 :=
    mul_le_mul_of_nonneg_left hc he0
  constructor
  · linarith
  · linarith

/-- Witness for C5 at M = 0, e = 1/2, first iterate. -/
theorem newton_divisor_pos_witness :
    1 - (1/2 : ℝ) ≤ 1 - (1/2) * Real.cos (specNewtonSeq 0 (1/2) 0) ∧
    0 < 1 - (1/2 : ℝ) * Real.cos (specNewtonSeq 0 (1/2) 0) :=
  newton_divisor_pos 0 (1/2) 0 (by norm_num) (by norm_num)

/-- Claim C6: with M = 0 and e = 0.5 the solver returns exactly 0 for every
iteration count n ≥ 1 (the origin is a fixed point of the update). -/
theorem keplersLaw_origin_fixed_point :
    ∀ (n : ℤ), 1 ≤ n → keplersLaw 0 (0.5) n = 0 := by
  intro n _
  exact keplersLaw_zero_M (0.5) n

/-- Witness for C6 at the default count n = 6. -/
theorem keplersLaw_origin_fixed_point_witness :
    keplersLaw 0 (0.5) 6 = 0 :=
  keplersLaw_origin_fixed_point 6 (by norm_num)

/-- Claim C7, counterexample: for fixed eccentricity the map M ↦ E(M) is
not non-decreasing.  At e = 99/100 with one iteration, the inputs
M₁ = π/6 < M₂ = π/2 give E(M₂) < E(M₁): one Newton step from the seed
E₀ = M overshoots badly for high eccentricity at small M. -/
theorem keplersLaw_not_monotone_in_M :
    Real.pi / 6 < Real.pi / 2 ∧
    keplersLaw (Real.pi / 2) (99/100) 1 < keplersLaw (Real.pi / 6) (99/100) 1 := by
  have hpi := Real.pi_pos
  have hpi315 := Real.pi_lt_d2
  constructor
  · linarith
  · rw [keplersLaw_one, keplersLaw_one, Real.sin_pi_div_two, Real.cos_pi_div_two,
      Real.sin_pi_div_six, Real.cos_pi_div_six]
    have hs1 : (1.732 : ℝ) < Real.sqrt 3 :=
      (Real.lt_sqrt (by norm_num)).2 (by norm_num)
    have hs2 : Real.sqrt 3 < (1.7321 : ℝ) :=
      (Real.sqrt_lt' (by norm_num)).2 (by norm_num)
    have hd : 0 < 1 - 99/100 * (Real.sqrt 3 / 2) := by nlinarith
    have key : (51/25 : ℝ) < 99/100 * (1/2) / (1 - 99/100 * (Real.sqrt 3 / 2)) := by
      rw [lt_div_iff₀ hd]
      nlinarith
    have lhs_eq : (99 : ℝ)/100 * 1 / (1 - 99/100 * 0) = 99/100 := by norm_num
    rw [lhs_eq]
    linarith

/-- Claim C7, amended: monotonicity in M does not hold for every fixed
eccentricity in [0, 1) and every iteration count (see the counterexample
at e = 99/100 with one iteration); it does hold for a single iteration
when the eccentricity is at most 1/3: if M₁ ≤ M₂ then
`keplersLaw M₁ e 1 ≤ keplersLaw M₂ e 1`. -/
theorem keplersLaw_one_step_monotone (e M₁ M₂ : ℝ) (he0 : 0 ≤ e)
    (he3 : e ≤ 1/3) (hM : M₁ ≤ M₂) :
    keplersLaw M₁ e 1 ≤ keplersLaw M₂ e 1 := by
  rw [keplersLaw_one, keplersLaw_one]
  have hΔ : 0 ≤ M₂ - M₁ := sub_nonneg.2 hM
  have hc₁ : Real.cos M₁ ≤ 1 := Real.cos_le_one M₁
  have hc₂ : Real.cos M₂ ≤ 1 := Real.cos_le_one M₂
  have hD₁ : 1 - e ≤ 1 - e * Real.cos M₁ := by nlinarith
  have hD₂ : 1 - e ≤ 1 - e * Real.cos M₂ := by nlinarith
  have hD₁pos : 0 < 1 - e * Real.cos M₁ := by linarith
  have hD₂pos : 0 < 1 - e * Real.cos M₂ := by linarith
  have hDD : (1 - e) * (1 - e) ≤ (1 - e * Real.cos M₁) * (1 - e * Real.cos M₂) :=
    mul_le_mul hD₁ hD₂ (by linarith) (by linarith)
  have hA : Real.sin (M₂ - M₁) ≤ M₂ - M₁ := Real.sin_le hΔ
  have h2 : Real.sin M₂ - Real.sin M₁ =
      2 * Real.sin ((M₂ - M₁) / 2) * Real.cos ((M₂ + M₁) / 2) :=
    Real.sin_sub_sin M₂ M₁
  have hprod : |Real.sin ((M₂ - M₁) / 2) * Real.cos ((M₂ + M₁) / 2)| ≤ (M₂ - M₁) / 2 := by
    rw [abs_mul]
    have h1 : |Real.sin ((M₂ - M₁) / 2)| ≤ (M₂ - M₁) / 2 := by
      have habs := Real.abs_sin_le_abs (x := (M₂ - M₁) / 2)
      rwa [abs_of_nonneg (show (0:ℝ) ≤ (M₂ - M₁) / 2 by linarith)] at habs
    have hcb : |Real.cos ((M₂ + M₁) / 2)| ≤ 1 := Real.abs_cos_le_one _
    calc |Real.sin ((M₂ - M₁) / 2)| * |Real.cos ((M₂ + M₁) / 2)|
        ≤ (M₂ - M₁) / 2 * 1 := mul_le_mul h1 hcb (abs_nonneg _) (by linarith)
    _ = (M₂ - M₁) / 2 := mul_one _
  have hB : -(M₂ - M₁) ≤ Real.sin M₂ - Real.sin M₁ := by
    rw [h2]
    have hneg := neg_abs_le (Real.sin ((M₂ - M₁) / 2) * Real.cos ((M₂ + M₁) / 2))
    nlinarith [hprod, hneg]
  have hsin_sub : Real.sin M₂ * Real.cos M₁ - Real.cos M₂ * Real.sin M₁ =
      Real.sin (M₂ - M₁) := (Real.sin_sub M₂ M₁).symm
  have key : M₂ + e * Real.sin M₂ / (1 - e * Real.cos M₂) -
      (M₁ + e * Real.sin M₁ / (1 - e * Real.cos M₁)) =
      ((M₂ - M₁) * ((1 - e * Real.cos M₁) * (1 - e * Real.cos M₂)) +
        e * ((Real.sin M₂ - Real.sin M₁) -
          e * (Real.sin M₂ * Real.cos M₁ - Real.cos M₂ * Real.sin M₁))) /
        ((1 - e * Real.cos M₁) * (1 - e * Real.cos M₂)) := by
    field_simp
    ring
  have hnum : 0 ≤ (M₂ - M₁) * ((1 - e * Real.cos M₁) * (1 - e * Real.cos M₂)) +
      e * ((Real.sin M₂ - Real.sin M₁) -
        e * (Real.sin M₂ * Real.cos M₁ - Real.cos M₂ * Real.sin M₁)) := by
    rw [hsin_sub]
    nlinarith [mul_le_mul_of_nonneg_left hDD hΔ,
      mul_le_mul_of_nonneg_left hB he0,
      mul_le_mul_of_nonneg_left hA (mul_nonneg he0 he0),
      mul_nonneg hΔ (show (0:ℝ) ≤ 1 - 3 * e by linarith)]
  have hfrac := div_nonneg hnum (mul_pos hD₁pos hD₂pos).le
  rw [← key] at hfrac
  linarith

/-- Witness for the amended C7 at e = 1/4, M₁ = 0, M₂ = 1. -/
theorem keplersLaw_one_step_monotone_witness :
    keplersLaw 0 (1/4) 1 ≤ keplersLaw 1 (1/4) 1 :=
  keplersLaw_one_step_monotone (1/4) 0 1 (by norm_num) (by norm_num) (by norm_num)

/-- Claim C8: the solver is deterministic — two calls with identical
arguments return identical results.  (Purity is captured by the embedding
itself: `keplersLaw` is a total function of its three arguments, reading
and writing no other state.) -/
theorem keplersLaw_deterministic :
    ∀ (M₁ e₁ : ℝ) (n₁ : ℤ) (M₂ e₂ : ℝ) (n₂ : ℤ),
      M₁ = M₂ → e₁ = e₂ → n₁ = n₂ → keplersLaw M₁ e₁ n₁ = keplersLaw M₂ e₂ n₂ := by
  intro M₁ e₁ n₁ M₂ e₂ n₂ hM he hn
  rw [hM, he, hn]

/-- Witness for C8: two calls at (1, 1/2, 6) agree. -/
theorem keplersLaw_deterministic_witness :
    keplersLaw 1 (1/2) 6 = keplersLaw 1 (1/2) 6 :=
  keplersLaw_deterministic 1 (1/2) 6 1 (1/2) 6 rfl rfl rfl

/-- Claim C9: the implemented solver performs no input validation and has
no error outcome — for every M, every e (including e ≥ 1 and e < 0) and
every iteration count it just runs its loop, computing the unvalidated
Newton-Raphson sequence; and at e = 1, M = 0 the first iteration's divisor
1 − e·cos(E₀) is exactly 0. -/
theorem keplersLaw_total_no_error_branch :
    (∀ (M e : ℝ) (n : ℤ), keplersLaw M e n = specNewtonSeq M e n.toNat) ∧
    1 - (1 : ℝ) * Real.cos (specNewtonSeq 0 1 0) = 0 := by
  constructor
  · intro M e n
    exact keplersLawLoop_eq_specNewtonSeq M e n.toNat
  · show 1 - (1 : ℝ) * Real.cos 0 = 0
    simp

/-- Claim C10: a call with iteration count 0 or negative returns M
unchanged — the loop body executes zero times and the initial guess
E₀ = M is returned as-is. -/
theorem keplersLaw_nonpos_iterations (M e : ℝ) (n : ℤ) (h : n ≤ 0) :
    keplersLaw M e n = M := by
  show keplersLawLoop M e n.toNat M = M
  rw [Int.toNat_of_nonpos h]
  rfl

/-- Witness for C10 at M = 5, e = 1/2, n = −3. -/
theorem keplersLaw_nonpos_iterations_witness :
    keplersLaw 5 (1/2) (-3) = 5 :=
  keplersLaw_nonpos_iterations 5 (1/2) (-3) (by norm_num)

end

end AsteroidHit
